import Mathlib

/-!
Shallow embedding of the agent-hooks repository core: the TAP Peer Store
(peer-store.js) and the worker HTTP handlers (worker.js, latest revision).

Modelling conventions:
* The Cloudflare KV namespace is an association list from structured keys to
  structured values.  The source builds flat template strings
  ("tap:peers:<id>:meta", "ratelimit:<ip>", "knock:<iso>:<uuid>"); peer ids are
  domain names (colon-free), so this flat keyspace is injective on the key
  shapes the code uses, and we represent it with a structured key type.
  kv.list with a key prefix becomes a filter on the key shape.  The abstract
  KV guarantees no listing order (the spec treats the backend as an abstract
  KV), and no property below depends on the order.
* JSON round-trips of the stored records are the identity, so records are
  stored structurally instead of as serialized strings.
* Host-environment effects are explicit parameters: new Date().toISOString()
  becomes a String parameter, Date.now() an Int parameter (milliseconds),
  crypto.randomUUID() a String parameter.  new Date(s).getTime() on the knock
  timestamp field is modelled by an extra payload field tsMs : Option Int
  (none models NaN).
* JavaScript falsiness of an optional string field (undefined, null or the
  empty string) is the predicate jsFalsy.
-/

/-- Status record of an operation result after JS object shapes. -/
structure StatusRes where
  success : Bool
  error : Option String
  peer_id : Option String
  status : Option String
deriving DecidableEq, Repr

/-- Result shape of addPeer. -/
structure AddPeerRes where
  success : Bool
  error : Option String
  peer_id : String
  key_id : Option String
  status : Option String
deriving DecidableEq, Repr

/-- Result shape of rotateKey. -/
structure RotateRes where
  success : Bool
  error : Option String
  peer_id : Option String
  new_key_id : Option String
  old_key_id : Option String
  message : Option String
deriving DecidableEq, Repr

/-- Result shape of recordContact. -/
structure ContactRes where
  success : Bool
  error : Option String
  peer_id : Option String
  last_contact : Option String
deriving DecidableEq, Repr

/-- Result shape of validateToken. -/
structure TokenCheck where
  valid : Bool
  key_id : Option String
  key_status : Option String
  reason : Option String
deriving DecidableEq, Repr

/-- Peer metadata record (createPeer in peer-store.js). -/
structure PeerMeta where
  peer_id : String
  display_name : String
  endpoints : List String
  status : String
  labels : List (String × String)
  annotations : List (String × String)
  created_at : String
  updated_at : String
  last_contact : Option String
  version : Nat
deriving DecidableEq, Repr

/-- Key record (createKey in peer-store.js). -/
structure KeyRec where
  key_id : String
  token_hash : String
  algorithm : String
  status : String
  created_at : String
  expires_at : Option String
deriving DecidableEq, Repr

/-- Knock audit record written by logKnock (worker.js, latest revision). -/
structure KnockLog where
  ip : String
  frm : Option String
  toF : Option String
  referrer : Option String
  reason : Option String
  nonce : Option String
  timestamp : String
  status : String
  rejection_reason : Option String
  has_upgrade_token : Bool
deriving DecidableEq, Repr

/-- Structured KV keys for the flat key strings built by the code. -/
inductive KVKey where
  | peerMeta (p : String)
  | peerStatus (p : String)
  | peerEndpoints (p : String)
  | peerKey (p : String) (kid : String)
  | ratelimit (ip : String)
  | knockLog (iso : String) (uuid : String)
deriving DecidableEq, Repr

/-- Structured KV values for the JSON strings the code stores. -/
inductive KVVal where
  | str (s : String)
  | meta (m : PeerMeta)
  | keyrec (k : KeyRec)
  | eps (es : List String)
  | hits (ts : List Int)
  | log (l : KnockLog)
deriving DecidableEq, Repr

/-- The KV namespace (env.TAP_KNOCKS) as an association list. -/
abbrev Store := List (KVKey × KVVal)

/-- kv.get: the value bound to the first occurrence of the key. -/
def kvGet : Store → KVKey → Option KVVal
  | [], _ => none
  | (k', v) :: rest, k => if k' = k then some v else kvGet rest k

/-- kv.put: unconditional overwrite of the binding for a key. -/
def kvPut (st : Store) (k : KVKey) (v : KVVal) : Store :=
  st.filter (fun e => decide (e.1 ≠ k)) ++ [(k, v)]

/-- kv.get with type json expecting a peer meta record. -/
def kvGetMeta (st : Store) (k : KVKey) : Option PeerMeta :=
  match kvGet st k with
  | some (KVVal.meta m) => some m
  | _ => none

/-- kv.get with type json expecting a key record. -/
def kvGetKeyRec (st : Store) (k : KVKey) : Option KeyRec :=
  match kvGet st k with
  | some (KVVal.keyrec kk) => some kk
  | _ => none

/-- Key helper metaKey of PeerStore. -/
def metaKey (p : String) : KVKey := KVKey.peerMeta p

/-- Key helper statusKey of PeerStore. -/
def statusKey (p : String) : KVKey := KVKey.peerStatus p

/-- Key helper endpointsKey of PeerStore. -/
def endpointsKey (p : String) : KVKey := KVKey.peerEndpoints p

/-- Key helper keyKey of PeerStore. -/
def keyKey (p : String) (kid : String) : KVKey := KVKey.peerKey p kid

/-- Membership in the peer key namespace, i.e. a key matching the
string prefix used by kv.list over the peer key records. -/
def isKeyOf (p : String) : KVKey → Bool
  | KVKey.peerKey p' _ => decide (p' = p)
  | _ => false

/-- One step of the hashToken loop: 32-bit wrap of (h shifted left 5) - h + c,
with JS int32 coercion after the shift and after the final and. -/
def toInt32 (n : Int) : Int := (n + 2 ^ 31) % 2 ^ 32 - 2 ^ 31

/-- Loop body of hashToken in peer-store.js. -/
def hashStep (h : Int) (c : Nat) : Int := toInt32 (toInt32 (h * 32) - h + c)

/-- hashToken of peer-store.js: the 32-bit non-cryptographic rolling hash of
the token, rendered as a lowercase-hex string with the hash: tag. -/
def hashToken (token : String) : String :=
  let h := token.data.foldl (fun h ch => hashStep h ch.toNat) 0
  "hash:" ++ String.mk (Nat.toDigits 16 h.natAbs)

/-- createPeer of peer-store.js. -/
def createPeer (peerId displayName : String) (endpoints : List String)
    (labels annotations : List (String × String)) (now : String) : PeerMeta :=
  { peer_id := peerId
    display_name := displayName
    endpoints := endpoints
    status := "pending"
    labels := labels
    annotations := annotations
    created_at := now
    updated_at := now
    last_contact := none
    version := 1 }

/-- createKey of peer-store.js: stores the token digest, never the token. -/
def createKey (keyId bearerToken : String) (now : String) : KeyRec :=
  { key_id := keyId
    token_hash := hashToken bearerToken
    algorithm := "bearer"
    status := "active"
    created_at := now
    expires_at := none }

/-- addPeer of peer-store.js.  now models new Date().toISOString(), nowMs
models Date.now() (the generated key id is key_ followed by Date.now()). -/
def addPeer (st : Store) (peerId displayName : String) (endpoints : List String)
    (bearerToken : String) (labels annotations : List (String × String))
    (now : String) (nowMs : Int) : AddPeerRes × Store :=
  match kvGet st (metaKey peerId) with
  | some _ => (⟨false, some "peer_exists", peerId, none, none⟩, st)
  | none =>
    let peer := createPeer peerId displayName endpoints labels annotations now
    let keyId := "key_" ++ toString nowMs
    let key := createKey keyId bearerToken now
    let st1 := kvPut st (metaKey peerId) (KVVal.meta peer)
    let st2 := kvPut st1 (statusKey peerId) (KVVal.str "pending")
    let st3 := kvPut st2 (endpointsKey peerId) (KVVal.eps endpoints)
    let st4 := kvPut st3 (keyKey peerId keyId) (KVVal.keyrec key)
    (⟨true, none, peerId, some keyId, some "pending"⟩, st4)

/-- activatePeer of peer-store.js: any existing peer gets status active,
updated_at refreshed and version bumped; missing peer is an error. -/
def activatePeer (st : Store) (peerId : String) (now : String) :
    StatusRes × Store :=
  match kvGetMeta st (metaKey peerId) with
  | none => (⟨false, some "peer_not_found", none, none⟩, st)
  | some m =>
    let m' := { m with status := "active", updated_at := now,
                       version := m.version + 1 }
    let st1 := kvPut st (metaKey peerId) (KVVal.meta m')
    let st2 := kvPut st1 (statusKey peerId) (KVVal.str "active")
    (⟨true, none, some peerId, some "active"⟩, st2)

/-- getStatus of peer-store.js: the raw status record. -/
def getStatus (st : Store) (peerId : String) : Option String :=
  match kvGet st (statusKey peerId) with
  | some (KVVal.str s) => some s
  | _ => none

/-- rotateKey of peer-store.js: add a new active key, mark the old key (when
given and present) retiring, bump the peer version.  No compare-and-set. -/
def rotateKey (st : Store) (peerId newBearerToken : String)
    (oldKeyId : Option String) (now : String) (nowMs : Int) :
    RotateRes × Store :=
  match kvGetMeta st (metaKey peerId) with
  | none => (⟨false, some "peer_not_found", none, none, none, none⟩, st)
  | some m =>
    let newKeyId := "key_" ++ toString nowMs
    let newKey := createKey newKeyId newBearerToken now
    let st1 :=
      match oldKeyId with
      | some okid =>
        match kvGetKeyRec st (keyKey peerId okid) with
        | some okey =>
          kvPut st (keyKey peerId okid) (KVVal.keyrec { okey with status := "retiring" })
        | none => st
      | none => st
    let st2 := kvPut st1 (keyKey peerId newKeyId) (KVVal.keyrec newKey)
    let m' := { m with updated_at := now, version := m.version + 1 }
    let st3 := kvPut st2 (metaKey peerId) (KVVal.meta m')
    (⟨true, none, some peerId, some newKeyId, oldKeyId,
       some "Key rotation started. Old key is retiring - keep both valid during overlap window."⟩,
     st3)

/-- revokePeer of peer-store.js: logical revocation writing only the meta and
status records. -/
def revokePeer (st : Store) (peerId : String) (now : String) :
    StatusRes × Store :=
  match kvGetMeta st (metaKey peerId) with
  | none => (⟨false, some "peer_not_found", none, none⟩, st)
  | some m =>
    let m' := { m with status := "revoked", updated_at := now,
                       version := m.version + 1 }
    let st1 := kvPut st (metaKey peerId) (KVVal.meta m')
    let st2 := kvPut st1 (statusKey peerId) (KVVal.str "revoked")
    (⟨true, none, some peerId, some "revoked"⟩, st2)

/-- validateToken of peer-store.js: fail closed on non-active peer status,
then scan the listed key records for an active or retiring key whose stored
digest equals the digest of the presented token. -/
def validateToken (st : Store) (peerId token : String) : TokenCheck :=
  if getStatus st peerId = some "active" then
    match ((st.filter (fun e => isKeyOf peerId e.1)).map Prod.fst).findSome?
      (fun name =>
      match kvGet st name with
      | some (KVVal.keyrec k) =>
        if (k.status = "active" ∨ k.status = "retiring") ∧
            k.token_hash = hashToken token then
          some ⟨true, some k.key_id, some k.status, none⟩
        else none
      | _ => none) with
    | some r => r
    | none => ⟨false, none, none, some "invalid_token"⟩
  else ⟨false, none, none, some "peer_not_active"⟩

/-- recordContact of peer-store.js. -/
def recordContact (st : Store) (peerId : String) (now : String) :
    ContactRes × Store :=
  match kvGetMeta st (metaKey peerId) with
  | none => (⟨false, some "peer_not_found", none, none⟩, st)
  | some m =>
    let m' := { m with last_contact := some now, updated_at := now,
                       version := m.version + 1 }
    (⟨true, none, some peerId, some now⟩,
     kvPut st (metaKey peerId) (KVVal.meta m'))

/-- HTTP response: status code and body text (headers are constants in every
branch of the handlers and carry no claim-relevant information). -/
structure HttpResp where
  status : Nat
  body : String
deriving DecidableEq, Repr

/-- Parsed body of a POST /knock request.  tsMs models
new Date(timestamp).getTime() with none for NaN. -/
structure KnockPayload where
  type : Option String
  frm : Option String
  toF : Option String
  timestamp : Option String
  nonce : Option String
  referrer : Option String
  reason : Option String
  upgrade_token : Option String
  tsMs : Option Int
deriving DecidableEq, Repr

/-- Parsed body of a POST /inbox request. -/
structure InboxPayload where
  frm : Option String
  body : Option String
  type : Option String
deriving DecidableEq, Repr

/-- JS falsiness of an optional string: absent or empty. -/
def jsFalsy : Option String → Bool
  | none => true
  | some s => decide (s = "")

/-- JS x or null coalescing on an optional string field. -/
def jsOrNone (s : Option String) : Option String :=
  if jsFalsy s then none else s

/-- knockError of worker.js: uniform JSON error body. -/
def knockError (status : Nat) (message : String) : HttpResp :=
  ⟨status,
   "\x7b\"status\":\"error\",\"protocol\":\"tap/v0\",\"message\":\"" ++
     message ++ "\"\x7d"⟩

/-- Accepted-knock response of handleKnock. -/
def acceptKnockResp (nowISO : String) : HttpResp :=
  ⟨200,
   "\x7b\"status\":\"received\",\"protocol\":\"tap/v0\",\"message\":\"Knock received.\",\"received_at\":\"" ++
     nowISO ++ "\"\x7d"⟩

/-- Stored rate-limit hit list for an IP, defaulting to empty exactly when the
record is absent or not a hit array. -/
def rlHits (st : Store) (ip : String) : List Int :=
  match kvGet st (KVKey.ratelimit ip) with
  | some (KVVal.hits l) => l
  | _ => []

/-- logKnock of worker.js: append the audit record under a knock-scoped key
(uuid models crypto.randomUUID()). -/
def logKnock (st : Store) (nowISO uuid : String) (l : KnockLog) : Store :=
  kvPut st (KVKey.knockLog nowISO uuid) (KVVal.log l)

/-- Timestamp rejection test of handleKnock: unparseable or more than five
minutes from gateway time. -/
def tsBad (nowMs : Int) : Option Int → Bool
  | none => true
  | some ts => decide (300000 < (nowMs - ts).natAbs)

/-- Outcome of handleKnock: response, updated store, audit record written. -/
structure KnockOut where
  resp : HttpResp
  st : Store
  log : KnockLog
deriving Repr

/-- handleKnock of worker.js (latest revision): parse, validate type and
required fields, check the timestamp window, then the per-IP sliding-window
rate limit (5 per rolling hour), logging every outcome.  The forward to the
local hook changes neither the store nor the response and is omitted. -/
def handleKnock (st : Store) (body : Option KnockPayload) (ip : String)
    (nowMs : Int) (nowISO uuid : String) : KnockOut :=
  match body with
  | none =>
    let l : KnockLog :=
      ⟨ip, none, none, none, some "bad_json", none, nowISO, "rejected", none, false⟩
    ⟨knockError 400 "Bad request.", logKnock st nowISO uuid l, l⟩
  | some p =>
    if p.type ≠ some "knock" then
      let l : KnockLog :=
        ⟨ip, jsOrNone p.frm, none, none, some "invalid_type", none, nowISO,
         "rejected", none, false⟩
      ⟨knockError 400 "Bad request.", logKnock st nowISO uuid l, l⟩
    else if jsFalsy p.frm || jsFalsy p.toF || jsFalsy p.timestamp || jsFalsy p.nonce then
      let l : KnockLog :=
        ⟨ip, jsOrNone p.frm, none, none, some "missing_fields", none, nowISO,
         "rejected", none, false⟩
      ⟨knockError 400 "Bad request.", logKnock st nowISO uuid l, l⟩
    else if tsBad nowMs p.tsMs then
      let l : KnockLog :=
        ⟨ip, jsOrNone p.frm, none, none, some "bad_timestamp", none, nowISO,
         "rejected", none, false⟩
      ⟨knockError 400 "Bad request.", logKnock st nowISO uuid l, l⟩
    else
      let hourAgo := nowMs - 3600000
      let hits := (rlHits st ip).filter (fun t => decide (t > hourAgo))
      if 5 ≤ hits.length then
        let l : KnockLog :=
          ⟨ip, jsOrNone p.frm, none, none, some "rate_limited", none, nowISO,
           "rejected", none, false⟩
        ⟨knockError 429 "Too many requests.", logKnock st nowISO uuid l, l⟩
      else
        let st1 := kvPut st (KVKey.ratelimit ip) (KVVal.hits (hits ++ [nowMs]))
        let l : KnockLog :=
          ⟨ip, jsOrNone p.frm, jsOrNone p.toF, jsOrNone p.referrer,
           jsOrNone p.reason, jsOrNone p.nonce, nowISO, "accepted", none,
           !(jsFalsy p.upgrade_token)⟩
        ⟨acceptKnockResp nowISO, logKnock st1 nowISO uuid l, l⟩

/-- Outcome of handleInbox: response and updated store. -/
structure InboxOut where
  resp : HttpResp
  st : Store
deriving Repr

/-- handleInbox of worker.js (latest revision): the bearer check compares the
Authorization header against the single env.SHARED_SECRET, then field checks,
then best-effort recordContact on the claimed sender.  The forward to the
local hook changes neither the store nor the response and is omitted. -/
def handleInbox (sharedSecret : String) (auth : Option String)
    (body : Option InboxPayload) (st : Store) (nowISO : String) : InboxOut :=
  if jsFalsy auth || auth ≠ some ("Bearer " ++ sharedSecret) then
    ⟨⟨401, "Unauthorized"⟩, st⟩
  else
    match body with
    | none => ⟨⟨400, "Bad JSON"⟩, st⟩
    | some p =>
      if jsFalsy p.frm || jsFalsy p.body then
        ⟨⟨400, "Invalid payload: from and body required"⟩, st⟩
      else
        let f := p.frm.getD ""
        let ty :=
          match p.type with
          | some t => if t = "" then "message" else t
          | none => "message"
        let st1 := (recordContact st f nowISO).2
        ⟨⟨200,
          "\x7b\"status\":\"delivered\",\"from\":\"" ++ f ++ "\",\"type\":\"" ++
            ty ++ "\",\"received_at\":\"" ++ nowISO ++ "\"\x7d"⟩, st1⟩

/-- Write phase of rotateKey with no old key id, taken verbatim from the
success branch of rotateKey: the atomic KV writes performed after the initial
meta read, parameterized by the meta value that read returned. -/
def rotateKeyWriteNoOld (st : Store) (peerId newBearerToken now : String)
    (nowMs : Int) (m : PeerMeta) : RotateRes × Store :=
  let newKeyId := "key_" ++ toString nowMs
  let newKey := createKey newKeyId newBearerToken now
  let st2 := kvPut st (keyKey peerId newKeyId) (KVVal.keyrec newKey)
  let m' := { m with updated_at := now, version := m.version + 1 }
  let st3 := kvPut st2 (metaKey peerId) (KVVal.meta m')
  (⟨true, none, some peerId, some newKeyId, none,
     some "Key rotation started. Old key is retiring - keep both valid during overlap window."⟩,
   st3)

/-- Interleaving of two concurrent rotateKey(peerId, token, null) invocations
at the granularity of the atomic KV operations, under the schedule
read_A, read_B, writes_A, writes_B: both reads observe the same base record
because rotateKey performs no compare-and-set. -/
def rotateKeyRace (st : Store) (peerId tokA tokB now : String) (nA nB : Int) :
    RotateRes × RotateRes × Store :=
  match kvGetMeta st (metaKey peerId) with
  | none =>
    (⟨false, some "peer_not_found", none, none, none, none⟩,
     ⟨false, some "peer_not_found", none, none, none, none⟩, st)
  | some m0 =>
    let ra := rotateKeyWriteNoOld st peerId tokA now nA m0
    let rb := rotateKeyWriteNoOld ra.2 peerId tokB now nB m0
    (ra.1, rb.1, rb.2)

/-- Authentication outcome the specification prescribes for the Inbox
Gateway.  Modelled from the spec: the presented bearer token is validated
against the Peer Trust Store by ValidateCredential for the sending peer. -/
def specInboxValid (st : Store) (frm : Option String) (auth : Option String) : Prop :=
  ∃ tok f, auth = some ("Bearer " ++ tok) ∧ frm = some f ∧
    (validateToken st f tok).valid = true

/-- Claim C1 as stated: every POST /inbox request is authenticated against
the Peer Trust Store via ValidateCredential, 401 exactly when invalid. -/
def c1Claim : Prop :=
  ∀ (secret : String) (auth : Option String) (body : Option InboxPayload)
    (st : Store) (now : String),
    ((handleInbox secret auth body st now).resp.status = 401 ↔
      ¬ specInboxValid st (body.bind InboxPayload.frm) auth)

/-- Claim C3 as stated: activatePeer on an already-active peer is a no-op
success leaving the stored record unchanged, and a peer transitions to active
only from pending. -/
def c3Claim : Prop :=
  (∀ (st : Store) (p now : String) (m : PeerMeta),
     kvGetMeta st (metaKey p) = some m → m.status = "active" →
     (activatePeer st p now).1.success = true ∧
     kvGetMeta (activatePeer st p now).2 (metaKey p) = some m) ∧
  (∀ (st : Store) (p now : String) (m : PeerMeta),
     kvGetMeta st (metaKey p) = some m → m.status ≠ "pending" →
     m.status ≠ "active" →
     getStatus (activatePeer st p now).2 p ≠ some "active")

/-- Claim C8 as stated: two concurrent rotateKey calls on one peer never both
succeed against the same base version (here under the canonical racing
schedule, where both reads see the same base record). -/
def c8Claim : Prop :=
  ∀ (st : Store) (p tokA tokB now : String) (nA nB : Int) (m : PeerMeta),
    kvGetMeta st (metaKey p) = some m →
    ¬ ((rotateKeyRace st p tokA tokB now nA nB).1.success = true ∧
       (rotateKeyRace st p tokA tokB now nA nB).2.1.success = true)

/-- Concrete trust store for the C1 counterexample: an active peer with one
enrolled active credential. -/
def c1Store : Store :=
  [(statusKey "peer.example", KVVal.str "active"),
   (keyKey "peer.example" "key_1", KVVal.keyrec (createKey "key_1" "sekret" "t0")),
   (metaKey "peer.example",
    KVVal.meta (createPeer "peer.example" "peer.example" [] [] [] "t0"))]

/-- Concrete inbox payload from the enrolled peer. -/
def c1Payload : InboxPayload := ⟨some "peer.example", some "hello", none⟩

/-- Concrete store for the C3 counterexample: an already-active peer. -/
def c3Meta : PeerMeta :=
  { peer_id := "a.example", display_name := "A", endpoints := [],
    status := "active", labels := [], annotations := [], created_at := "t0",
    updated_at := "t0", last_contact := none, version := 1 }

/-- Store holding only the already-active peer record. -/
def c3Store : Store := [(metaKey "a.example", KVVal.meta c3Meta)]

/-- Concrete store for the C8 counterexample: one existing peer. -/
def c8Store : Store :=
  [(metaKey "p.example", KVVal.meta (createPeer "p.example" "P" [] [] [] "t0"))]

/-- Valid knock payload template used in rate-limit statements. -/
def validKnockPayload (ts : Int) : KnockPayload :=
  ⟨some "knock", some "a.example", some "b.example", some "ts", some "n1",
   none, none, none, some ts⟩

/-- Store for the minute-0/minute-59/minute-60 sliding-window scenario: one
source IP has already used its five slots during minutes 0 and 59. -/
def c6Store : Store :=
  [(KVKey.ratelimit "9.9.9.9", KVVal.hits [10000, 20000, 59000, 3540000, 3550000])]

/-- Store for the C2 witness: a pending peer holding a key whose digest
matches the presented secret. -/
def c2Store : Store :=
  [(statusKey "w.example", KVVal.str "pending"),
   (keyKey "w.example" "key_1", KVVal.keyrec (createKey "key_1" "tok" "t0"))]

/-- Store for the C9 witness: an active peer enrolled with credential Aa,
which collides with BB under hashToken. -/
def c9Store : Store :=
  [(statusKey "c.example", KVVal.str "active"),
   (keyKey "c.example" "key_1", KVVal.keyrec (createKey "key_1" "Aa" "t0"))]

/-- Meta record of a revoked peer, for the C3 witness. -/
def c3RevMeta : PeerMeta :=
  { peer_id := "r.example", display_name := "R", endpoints := [],
    status := "revoked", labels := [], annotations := [], created_at := "t0",
    updated_at := "t0", last_contact := none, version := 3 }

/-- Store holding only the revoked peer record, for the C3 witness. -/
def c3RevStore : Store := [(metaKey "r.example", KVVal.meta c3RevMeta)]

/-- Store for the C4 witness: an active peer with one active key for the
credential oldtok. -/
def c4Store : Store :=
  [(statusKey "d.example", KVVal.str "active"),
   (keyKey "d.example" "key_1", KVVal.keyrec (createKey "key_1" "oldtok" "t0")),
   (metaKey "d.example", KVVal.meta (createPeer "d.example" "D" [] [] [] "t0"))]

/-- Store for the C10 witness: an active peer with an enrolled credential. -/
def c10Store : Store :=
  [(statusKey "e.example", KVVal.str "active"),
   (keyKey "e.example" "key_1", KVVal.keyrec (createKey "key_1" "etok" "t0")),
   (metaKey "e.example", KVVal.meta (createPeer "e.example" "E" [] [] [] "t0"))]

/-- Sequential driver: one knock per (time, iso, uuid) triple from a single
source IP, each seeing the store the previous call produced. -/
def runKnocks (st : Store) (ip : String) : List (Int × String × String) → List KnockOut
  | [] => []
  | (t, iso, uu) :: rest =>
    let k := handleKnock st (some (validKnockPayload t)) ip t iso uu
    k :: runKnocks k.st ip rest

set_option maxRecDepth 8192

theorem kvGet_put_self (st : Store) (k : KVKey) (v : KVVal) :
    kvGet (kvPut st k v) k = some v := by
  induction st with
  | nil => simp [kvPut, kvGet]
  | cons e rest ih =>
    rcases e with ⟨k', v'⟩
    by_cases h : k' = k
    · simpa [kvPut, List.filter_cons, h] using ih
    · simpa [kvPut, List.filter_cons, h, kvGet] using ih

theorem kvGet_put_ne (st : Store) (k k' : KVKey) (v : KVVal) (h : k ≠ k') :
    kvGet (kvPut st k v) k' = kvGet st k' := by
  induction st with
  | nil => simp [kvPut, kvGet, h]
  | cons e rest ih =>
    rcases e with ⟨k'', v''⟩
    by_cases h2 : k'' = k
    · subst h2
      simpa [kvPut, List.filter_cons, kvGet, h] using ih
    · by_cases h3 : k'' = k'
      · have h4 : ¬ k' = k := fun hh => h hh.symm
        simp [kvPut, List.filter_cons, kvGet, h2, h3, h4]
      · simpa [kvPut, List.filter_cons, kvGet, h2, h3] using ih

theorem kvGet_mem {st : Store} {k : KVKey} {v : KVVal}
    (h : kvGet st k = some v) : (k, v) ∈ st := by
  induction st with
  | nil => simp [kvGet] at h
  | cons e rest ih =>
    rcases e with ⟨k', v'⟩
    by_cases h2 : k' = k
    · subst h2
      rw [kvGet, if_pos rfl] at h
      cases h
      exact List.mem_cons_self _ _
    · rw [kvGet, if_neg h2] at h
      exact List.mem_cons_of_mem _ (ih h)

theorem validateToken_valid_of_key (st : Store) (p tok kid : String) (k : KeyRec)
    (hstat : getStatus st p = some "active")
    (hkey : kvGet st (keyKey p kid) = some (KVVal.keyrec k))
    (hks : k.status = "active" ∨ k.status = "retiring")
    (hh : k.token_hash = hashToken tok) :
    (validateToken st p tok).valid = true := by
  unfold validateToken
  rw [if_pos hstat]
  have h1 : (keyKey p kid, KVVal.keyrec k) ∈ st := kvGet_mem hkey
  have h2 : (keyKey p kid, KVVal.keyrec k) ∈
      st.filter (fun e => isKeyOf p e.1) :=
    List.mem_filter.mpr ⟨h1, by simp [isKeyOf, keyKey]⟩
  have hmem : keyKey p kid ∈ (st.filter (fun e => isKeyOf p e.1)).map Prod.fst :=
    List.mem_map_of_mem Prod.fst h2
  split
  · next r heq =>
    obtain ⟨a, _, hfa2⟩ := List.exists_of_findSome?_eq_some heq
    cases hget : kvGet st a with
    | none =>
      rw [hget] at hfa2
      simp at hfa2
    | some v =>
      cases v with
      | keyrec kk =>
        rw [hget] at hfa2
        simp only at hfa2
        split at hfa2
        · cases hfa2
          rfl
        · cases hfa2
      | str s => rw [hget] at hfa2; simp at hfa2
      | meta m => rw [hget] at hfa2; simp at hfa2
      | eps es => rw [hget] at hfa2; simp at hfa2
      | hits ts => rw [hget] at hfa2; simp at hfa2
      | log l => rw [hget] at hfa2; simp at hfa2
  · next heq =>
    exfalso
    have hall := List.findSome?_eq_none_iff.mp heq _ hmem
    simp only [hkey] at hall
    rw [if_pos ⟨hks, hh⟩] at hall
    cases hall

theorem validateToken_valid_elim (st : Store) (p tok : String)
    (h : (validateToken st p tok).valid = true) :
    getStatus st p = some "active" ∧
    ∃ kid k, kvGet st (keyKey p kid) = some (KVVal.keyrec k) ∧
      (k.status = "active" ∨ k.status = "retiring") ∧
      k.token_hash = hashToken tok := by
  unfold validateToken at h
  by_cases hstat : getStatus st p = some "active"
  · rw [if_pos hstat] at h
    refine ⟨hstat, ?_⟩
    split at h
    · next r heq =>
      obtain ⟨a, ha, hfa⟩ := List.exists_of_findSome?_eq_some heq
      obtain ⟨⟨ak, av⟩, hmemf, rfl⟩ := List.mem_map.mp ha
      have hkof : isKeyOf p ak = true := (List.mem_filter.mp hmemf).2
      cases ak with
      | peerKey p' kid =>
        have hp : p' = p := by simpa [isKeyOf] using hkof
        subst hp
        cases hget : kvGet st (KVKey.peerKey p' kid) with
        | none =>
          rw [hget] at hfa
          simp at hfa
        | some v =>
          cases v with
          | keyrec kk =>
            rw [hget] at hfa
            simp only at hfa
            split at hfa
            · next hc => exact ⟨kid, kk, hget, hc.1, hc.2⟩
            · cases hfa
          | str s => rw [hget] at hfa; simp at hfa
          | meta m => rw [hget] at hfa; simp at hfa
          | eps es => rw [hget] at hfa; simp at hfa
          | hits ts => rw [hget] at hfa; simp at hfa
          | log l => rw [hget] at hfa; simp at hfa
      | peerMeta q => simp [isKeyOf] at hkof
      | peerStatus q => simp [isKeyOf] at hkof
      | peerEndpoints q => simp [isKeyOf] at hkof
      | ratelimit q => simp [isKeyOf] at hkof
      | knockLog q u => simp [isKeyOf] at hkof
    · simp at h
  · rw [if_neg hstat] at h
    simp at h

theorem getStatus_put_ne (st : Store) (k : KVKey) (v : KVVal) (p : String)
    (h : k ≠ statusKey p) : getStatus (kvPut st k v) p = getStatus st p := by
  unfold getStatus
  rw [kvGet_put_ne _ _ _ _ h]

/-- C2: validateToken returns the invalid peer_not_active result whenever the
stored peer status is not active, for every presented secret, including one
whose digest matches a stored key digest (fail-closed). -/
theorem validateToken_inactive_invalid (st : Store) (p tok : String)
    (h : getStatus st p ≠ some "active") :
    validateToken st p tok = ⟨false, none, none, some "peer_not_active"⟩ := by
  unfold validateToken
  rw [if_neg h]

theorem validateToken_inactive_invalid_witness :
    getStatus c2Store "w.example" ≠ some "active" ∧
    (kvGetKeyRec c2Store (keyKey "w.example" "key_1")).map KeyRec.token_hash =
      some (hashToken "tok") ∧
    validateToken c2Store "w.example" "tok" =
      ⟨false, none, none, some "peer_not_active"⟩ :=
  ⟨by decide, by decide,
   validateToken_inactive_invalid c2Store "w.example" "tok" (by decide)⟩

/-- C9: validateToken depends on the presented secret only through hashToken,
so two secrets with equal hashes validate identically, and any secret that
collides with an enrolled credential of an active or retiring key of an
active peer is accepted as valid. -/
theorem validateToken_hash_only :
    (∀ (st : Store) (p t1 t2 : String), hashToken t1 = hashToken t2 →
      validateToken st p t1 = validateToken st p t2) ∧
    (∀ (st : Store) (p cred secret kid : String) (k : KeyRec),
      getStatus st p = some "active" →
      kvGet st (keyKey p kid) = some (KVVal.keyrec k) →
      (k.status = "active" ∨ k.status = "retiring") →
      k.token_hash = hashToken cred →
      hashToken secret = hashToken cred →
      (validateToken st p secret).valid = true) := by
  constructor
  · intro st p t1 t2 h
    unfold validateToken
    rw [h]
  · intro st p cred secret kid k hstat hkey hks hh hcoll
    exact validateToken_valid_of_key st p secret kid k hstat hkey hks
      (hh.trans hcoll.symm)

theorem validateToken_hash_only_witness :
    hashToken "Aa" = hashToken "BB" ∧
    "Aa" ≠ "BB" ∧
    validateToken c9Store "c.example" "Aa" = validateToken c9Store "c.example" "BB" ∧
    (validateToken c9Store "c.example" "BB").valid = true :=
  ⟨rfl, by decide,
   validateToken_hash_only.1 c9Store "c.example" "Aa" "BB" rfl,
   validateToken_hash_only.2 c9Store "c.example" "Aa" "BB" "key_1"
     (createKey "key_1" "Aa" "t0") (by decide) (by decide) (Or.inl rfl) rfl rfl⟩

/-- C1 counterexample: the claim that handleInbox authenticates the bearer
token against the Peer Trust Store via ValidateCredential is false: with a
store in which the presented credential is valid for the sending peer but an
environment whose SHARED_SECRET differs, the request is still rejected 401. -/
theorem handleInbox_auth_claim_false : ¬ c1Claim := by
  intro h
  have h2 := h "other" (some "Bearer sekret") (some c1Payload) c1Store "t1"
  have h3 : (handleInbox "other" (some "Bearer sekret") (some c1Payload)
      c1Store "t1").resp.status = 401 := rfl
  exact (h2.mp h3) ⟨"sekret", "peer.example", rfl, rfl, rfl⟩

/-- C1 amended: handleInbox rejects with 401 exactly when the Authorization
header differs from Bearer SHARED_SECRET; the Peer Trust Store is never
consulted for authentication, and every authentication failure produces the
identical 401 Unauthorized response with the store left unchanged. -/
theorem handleInbox_auth_sharedSecret (secret : String) (auth : Option String)
    (body : Option InboxPayload) (st : Store) (now : String) :
    ((handleInbox secret auth body st now).resp.status = 401 ↔
      auth ≠ some ("Bearer " ++ secret)) ∧
    (auth ≠ some ("Bearer " ++ secret) →
      handleInbox secret auth body st now = ⟨⟨401, "Unauthorized"⟩, st⟩) := by
  have hne : ¬ ("Bearer " ++ secret = "") := by
    intro hcontra
    have hlen := congrArg String.length hcontra
    simp [String.length_append] at hlen
    exact absurd hlen.1 (by decide)
  have hmain2 : auth ≠ some ("Bearer " ++ secret) →
      handleInbox secret auth body st now = ⟨⟨401, "Unauthorized"⟩, st⟩ := by
    intro hB
    simp [handleInbox, hB]
  have hmain : auth = some ("Bearer " ++ secret) →
      (handleInbox secret auth body st now).resp.status ≠ 401 := by
    intro hB
    subst hB
    have hcond : (jsFalsy (some ("Bearer " ++ secret)) ||
        decide (some ("Bearer " ++ secret) ≠ some ("Bearer " ++ secret))) = false := by
      simp [jsFalsy, hne]
    unfold handleInbox
    rw [hcond]
    cases body with
    | none => simp
    | some p =>
      by_cases hf : (jsFalsy p.frm || jsFalsy p.body) = true
      · simp [hf]
      · simp [hf]
  exact ⟨⟨fun h401 hB => hmain hB h401, fun hB => by rw [hmain2 hB]⟩, hmain2⟩

theorem handleInbox_auth_sharedSecret_witness :
    (handleInbox "s3cret" (some "Bearer wrong") (some c1Payload) c1Store
      "t1").resp.status = 401 ∧
    handleInbox "s3cret" (some "Bearer wrong") (some c1Payload) c1Store "t1" =
      ⟨⟨401, "Unauthorized"⟩, c1Store⟩ ∧
    (handleInbox "s3cret" (some "Bearer s3cret") (some c1Payload) c1Store
      "t1").resp.status ≠ 401 :=
  ⟨(handleInbox_auth_sharedSecret "s3cret" (some "Bearer wrong")
      (some c1Payload) c1Store "t1").1.mpr (by decide),
   (handleInbox_auth_sharedSecret "s3cret" (some "Bearer wrong")
      (some c1Payload) c1Store "t1").2 (by decide),
   fun hcontra =>
     absurd ((handleInbox_auth_sharedSecret "s3cret" (some "Bearer s3cret")
       (some c1Payload) c1Store "t1").1.mp hcontra) (by decide)⟩

/-- C3 counterexample: activatePeer on an already-active peer is not a no-op;
it rewrites the stored meta record with the version bumped (and the code also
never checks for pending status). -/
theorem activatePeer_claim_false : ¬ c3Claim := by
  intro h
  have h2 := (h.1 c3Store "a.example" "t1" c3Meta rfl rfl).2
  have h3 : kvGetMeta (activatePeer c3Store "a.example" "t1").2
      (metaKey "a.example") =
      some { c3Meta with updated_at := "t1", version := 2 } := rfl
  exact absurd (h2.symm.trans h3) (by decide)

/-- C3 amended: activatePeer succeeds on any existing peer regardless of its
current status (including revoked), always setting status to active and
rewriting the meta record with updated_at refreshed and version bumped; an
already-active peer is re-activated with a version bump, so the call is not a
pure no-op; only a missing peer fails, with peer_not_found and no writes. -/
theorem activatePeer_any_status :
    (∀ (st : Store) (p now : String) (m : PeerMeta),
      kvGetMeta st (metaKey p) = some m →
      (activatePeer st p now).1 = ⟨true, none, some p, some "active"⟩ ∧
      kvGetMeta (activatePeer st p now).2 (metaKey p) =
        some { m with status := "active", updated_at := now,
                      version := m.version + 1 } ∧
      getStatus (activatePeer st p now).2 p = some "active") ∧
    (∀ (st : Store) (p now : String),
      kvGetMeta st (metaKey p) = none →
      activatePeer st p now = (⟨false, some "peer_not_found", none, none⟩, st)) := by
  constructor
  · intro st p now m hm
    unfold activatePeer
    rw [hm]
    refine ⟨rfl, ?_, ?_⟩
    · unfold kvGetMeta
      rw [kvGet_put_ne _ _ _ _ (by simp [statusKey, metaKey]), kvGet_put_self]
    · unfold getStatus
      rw [kvGet_put_self]
  · intro st p now hm
    unfold activatePeer
    rw [hm]

theorem activatePeer_any_status_witness :
    c3RevMeta.status = "revoked" ∧
    (activatePeer c3RevStore "r.example" "t1").1 =
      ⟨true, none, some "r.example", some "active"⟩ ∧
    getStatus (activatePeer c3RevStore "r.example" "t1").2 "r.example" =
      some "active" :=
  ⟨rfl,
   (activatePeer_any_status.1 c3RevStore "r.example" "t1" c3RevMeta rfl).1,
   (activatePeer_any_status.1 c3RevStore "r.example" "t1" c3RevMeta rfl).2.2⟩

theorem rotateKey_decomp (st : Store) (p tok now : String) (nowMs : Int) :
    rotateKey st p tok none now nowMs =
      match kvGetMeta st (metaKey p) with
      | none => (⟨false, some "peer_not_found", none, none, none, none⟩, st)
      | some m => rotateKeyWriteNoOld st p tok now nowMs m := by
  unfold rotateKey rotateKeyWriteNoOld
  cases kvGetMeta st (metaKey p) <;> rfl

/-- C8 counterexample: rotateKey has no compare-and-set, so under the
canonical racing interleaving of two rotateKey calls on the same peer both
calls read the same base version and both report success. -/
theorem rotateKey_cas_claim_false : ¬ c8Claim := by
  intro h
  exact h c8Store "p.example" "tokA" "tokB" "t1" 100 200
    (createPeer "p.example" "P" [] [] [] "t0") rfl ⟨rfl, rfl⟩

/-- C8 amended: rotateKey is a plain read-modify-write with no
compare-and-set: in the racing interleaving both concurrent calls on the same
peer succeed against the same base version and one version bump is lost (the
final version is base+1, while the sequential composition yields base+2), and
rotateKey reports success for every existing peer, never a conflict. -/
theorem rotateKey_no_cas_lost_update :
    (∀ (st : Store) (p tokA tokB now : String) (nA nB : Int) (m : PeerMeta),
      kvGetMeta st (metaKey p) = some m →
      (rotateKeyRace st p tokA tokB now nA nB).1.success = true ∧
      (rotateKeyRace st p tokA tokB now nA nB).2.1.success = true ∧
      kvGetMeta (rotateKeyRace st p tokA tokB now nA nB).2.2 (metaKey p) =
        some { m with updated_at := now, version := m.version + 1 }) ∧
    (∀ (st : Store) (p tokA tokB now : String) (nA nB : Int) (m : PeerMeta),
      kvGetMeta st (metaKey p) = some m →
      kvGetMeta (rotateKey (rotateKey st p tokA none now nA).2 p tokB none
          now nB).2 (metaKey p) =
        some { m with updated_at := now, version := m.version + 2 }) ∧
    (∀ (st : Store) (p tok now : String) (oldKeyId : Option String)
      (nowMs : Int) (m : PeerMeta),
      kvGetMeta st (metaKey p) = some m →
      (rotateKey st p tok oldKeyId now nowMs).1.success = true) := by
  refine ⟨?_, ?_, ?_⟩
  · intro st p tokA tokB now nA nB m hm
    unfold rotateKeyRace
    rw [hm]
    refine ⟨rfl, rfl, ?_⟩
    unfold rotateKeyWriteNoOld kvGetMeta
    rw [kvGet_put_self]
  · intro st p tokA tokB now nA nB m hm
    have d1 := rotateKey_decomp st p tokA now nA
    rw [hm] at d1
    rw [d1]
    have hm1 : kvGetMeta (rotateKeyWriteNoOld st p tokA now nA m).2
        (metaKey p) = some { m with updated_at := now, version := m.version + 1 } := by
      unfold rotateKeyWriteNoOld kvGetMeta
      rw [kvGet_put_self]
    have d2 := rotateKey_decomp (rotateKeyWriteNoOld st p tokA now nA m).2
      p tokB now nB
    rw [hm1] at d2
    rw [d2]
    unfold rotateKeyWriteNoOld kvGetMeta
    rw [kvGet_put_self]
  · intro st p tok now oldKeyId nowMs m hm
    unfold rotateKey
    rw [hm]

theorem rotateKey_no_cas_lost_update_witness :
    (rotateKeyRace c8Store "p.example" "tokA" "tokB" "t1" 100 200).1.success = true ∧
    (rotateKeyRace c8Store "p.example" "tokA" "tokB" "t1" 100 200).2.1.success = true ∧
    kvGetMeta (rotateKeyRace c8Store "p.example" "tokA" "tokB" "t1" 100 200).2.2
      (metaKey "p.example") =
      some { createPeer "p.example" "P" [] [] [] "t0" with
               updated_at := "t1", version := 2 } ∧
    kvGetMeta (rotateKey (rotateKey c8Store "p.example" "tokA" none "t1" 100).2
        "p.example" "tokB" none "t1" 200).2 (metaKey "p.example") =
      some { createPeer "p.example" "P" [] [] [] "t0" with
               updated_at := "t1", version := 3 } :=
  ⟨(rotateKey_no_cas_lost_update.1 c8Store "p.example" "tokA" "tokB" "t1"
      100 200 (createPeer "p.example" "P" [] [] [] "t0") rfl).1,
   (rotateKey_no_cas_lost_update.1 c8Store "p.example" "tokA" "tokB" "t1"
      100 200 (createPeer "p.example" "P" [] [] [] "t0") rfl).2.1,
   (rotateKey_no_cas_lost_update.1 c8Store "p.example" "tokA" "tokB" "t1"
      100 200 (createPeer "p.example" "P" [] [] [] "t0") rfl).2.2,
   rotateKey_no_cas_lost_update.2.1 c8Store "p.example" "tokA" "tokB" "t1"
      100 200 (createPeer "p.example" "P" [] [] [] "t0") rfl⟩

/-- C4: immediately after rotateKey on an active peer whose old key was valid
(active or retiring with matching digest), the old key record is marked
retiring but never deleted, and both the old and its new credential
authenticate successfully through validateToken. -/
theorem rotateKey_overlap_bothValid (st : Store)
    (p oldTok newTok now : String) (nowMs : Int) (okid : String)
    (okey : KeyRec) (m : PeerMeta)
    (hm : kvGetMeta st (metaKey p) = some m)
    (hstat : getStatus st p = some "active")
    (hkey : kvGet st (keyKey p okid) = some (KVVal.keyrec okey))
    (hks : okey.status = "active" ∨ okey.status = "retiring")
    (hh : okey.token_hash = hashToken oldTok)
    (hfresh : "key_" ++ toString nowMs ≠ okid) :
    (rotateKey st p newTok (some okid) now nowMs).1.success = true ∧
    kvGet (rotateKey st p newTok (some okid) now nowMs).2 (keyKey p okid) =
      some (KVVal.keyrec { okey with status := "retiring" }) ∧
    (validateToken (rotateKey st p newTok (some okid) now nowMs).2 p
      oldTok).valid = true ∧
    (validateToken (rotateKey st p newTok (some okid) now nowMs).2 p
      newTok).valid = true := by
  have hkr : kvGetKeyRec st (keyKey p okid) = some okey := by
    unfold kvGetKeyRec
    rw [hkey]
  have hne1 : metaKey p ≠ keyKey p okid := by simp [metaKey, keyKey]
  have hne2 : keyKey p ("key_" ++ toString nowMs) ≠ keyKey p okid := by
    simp [keyKey, hfresh]
  have hne3 : metaKey p ≠ keyKey p ("key_" ++ toString nowMs) := by
    simp [metaKey, keyKey]
  have hstat3 : getStatus (rotateKey st p newTok (some okid) now nowMs).2 p =
      some "active" := by
    simp only [rotateKey, hm, hkr]
    rw [getStatus_put_ne _ _ _ _ (by simp [metaKey, statusKey]),
        getStatus_put_ne _ _ _ _ (by simp [keyKey, statusKey]),
        getStatus_put_ne _ _ _ _ (by simp [keyKey, statusKey])]
    exact hstat
  have hold : kvGet (rotateKey st p newTok (some okid) now nowMs).2
      (keyKey p okid) =
      some (KVVal.keyrec { okey with status := "retiring" }) := by
    simp only [rotateKey, hm, hkr]
    rw [kvGet_put_ne _ _ _ _ hne1, kvGet_put_ne _ _ _ _ hne2, kvGet_put_self]
  have hnew : kvGet (rotateKey st p newTok (some okid) now nowMs).2
      (keyKey p ("key_" ++ toString nowMs)) =
      some (KVVal.keyrec (createKey ("key_" ++ toString nowMs) newTok now)) := by
    simp only [rotateKey, hm, hkr]
    rw [kvGet_put_ne _ _ _ _ hne3, kvGet_put_self]
  refine ⟨?_, hold, ?_, ?_⟩
  · simp [rotateKey, hm, hkr]
  · exact validateToken_valid_of_key _ p oldTok okid _ hstat3 hold
      (Or.inr rfl) hh
  · exact validateToken_valid_of_key _ p newTok ("key_" ++ toString nowMs) _
      hstat3 hnew (Or.inl rfl) rfl

theorem rotateKey_overlap_bothValid_witness :
    (rotateKey c4Store "d.example" "newtok" (some "key_1") "t1" 5).1.success = true ∧
    kvGet (rotateKey c4Store "d.example" "newtok" (some "key_1") "t1" 5).2
      (keyKey "d.example" "key_1") =
      some (KVVal.keyrec { createKey "key_1" "oldtok" "t0" with status := "retiring" }) ∧
    (validateToken (rotateKey c4Store "d.example" "newtok" (some "key_1")
      "t1" 5).2 "d.example" "oldtok").valid = true ∧
    (validateToken (rotateKey c4Store "d.example" "newtok" (some "key_1")
      "t1" 5).2 "d.example" "newtok").valid = true :=
  rotateKey_overlap_bothValid c4Store "d.example" "oldtok" "newtok" "t1" 5
    "key_1" (createKey "key_1" "oldtok" "t0")
    (createPeer "d.example" "D" [] [] [] "t0") rfl rfl rfl (Or.inl rfl) rfl
    (by decide)

/-- C10: revokePeer writes only the peer meta and status records, leaving
every key record under every peer unchanged with its prior status, so a later
activatePeer on the same peer makes a credential that validated before the
revocation validate again, with no key re-added. -/
theorem revokePeer_frame_keys (st : Store) (p nowR nowA tok : String)
    (m : PeerMeta)
    (hm : kvGetMeta st (metaKey p) = some m)
    (hv : (validateToken st p tok).valid = true) :
    (revokePeer st p nowR).1.success = true ∧
    (∀ (q kid' : String),
      kvGet (revokePeer st p nowR).2 (keyKey q kid') =
        kvGet st (keyKey q kid')) ∧
    (∀ (q kid' : String),
      kvGet (activatePeer (revokePeer st p nowR).2 p nowA).2 (keyKey q kid') =
        kvGet st (keyKey q kid')) ∧
    (validateToken (activatePeer (revokePeer st p nowR).2 p nowA).2 p
      tok).valid = true := by
  obtain ⟨hstatOld, kid, k, hkey, hks, hh⟩ := validateToken_valid_elim st p tok hv
  have e1 : (revokePeer st p nowR).2 =
      kvPut (kvPut st (metaKey p)
        (KVVal.meta { m with status := "revoked", updated_at := nowR, version := m.version + 1 }))
        (statusKey p) (KVVal.str "revoked") := by
    simp [revokePeer, hm]
  have hsucc : (revokePeer st p nowR).1.success = true := by
    simp [revokePeer, hm]
  have frame1 : ∀ (q kid' : String),
      kvGet (revokePeer st p nowR).2 (keyKey q kid') =
        kvGet st (keyKey q kid') := by
    intro q kid'
    rw [e1, kvGet_put_ne _ _ _ _ (by simp [statusKey, keyKey]),
        kvGet_put_ne _ _ _ _ (by simp [metaKey, keyKey])]
  have hm1 : kvGetMeta (revokePeer st p nowR).2 (metaKey p) =
      some { m with status := "revoked", updated_at := nowR, version := m.version + 1 } := by
    rw [e1]
    unfold kvGetMeta
    rw [kvGet_put_ne _ _ _ _ (by simp [statusKey, metaKey]), kvGet_put_self]
  have frame2 : ∀ (q kid' : String),
      kvGet (activatePeer (revokePeer st p nowR).2 p nowA).2 (keyKey q kid') =
        kvGet (revokePeer st p nowR).2 (keyKey q kid') := by
    intro q kid'
    simp only [activatePeer, hm1]
    rw [kvGet_put_ne _ _ _ _ (by simp [statusKey, keyKey]),
        kvGet_put_ne _ _ _ _ (by simp [metaKey, keyKey])]
  have hstat2 : getStatus (activatePeer (revokePeer st p nowR).2 p nowA).2 p =
      some "active" := by
    simp only [activatePeer, hm1]
    unfold getStatus
    rw [kvGet_put_self]
  refine ⟨hsucc, frame1, fun q kid' => (frame2 q kid').trans (frame1 q kid'), ?_⟩
  exact validateToken_valid_of_key _ p tok kid k hstat2
    (((frame2 p kid).trans (frame1 p kid)).trans hkey) hks hh

theorem revokePeer_frame_keys_witness :
    (validateToken c10Store "e.example" "etok").valid = true ∧
    (revokePeer c10Store "e.example" "r1").1.success = true ∧
    kvGet (revokePeer c10Store "e.example" "r1").2 (keyKey "e.example" "key_1") =
      kvGet c10Store (keyKey "e.example" "key_1") ∧
    (validateToken (activatePeer (revokePeer c10Store "e.example" "r1").2
      "e.example" "a1").2 "e.example" "etok").valid = true :=
  ⟨rfl,
   (revokePeer_frame_keys c10Store "e.example" "r1" "a1" "etok"
     (createPeer "e.example" "E" [] [] [] "t0") rfl rfl).1,
   (revokePeer_frame_keys c10Store "e.example" "r1" "a1" "etok"
     (createPeer "e.example" "E" [] [] [] "t0") rfl rfl).2.1 "e.example" "key_1",
   (revokePeer_frame_keys c10Store "e.example" "r1" "a1" "etok"
     (createPeer "e.example" "E" [] [] [] "t0") rfl rfl).2.2.2⟩

theorem filterKeys_put_nonkey (st : Store) (p : String) (k : KVKey) (v : KVVal)
    (hk : isKeyOf p k = false)
    (h : st.filter (fun e => isKeyOf p e.1) = []) :
    (kvPut st k v).filter (fun e => isKeyOf p e.1) = [] := by
  unfold kvPut
  rw [List.filter_append, List.filter_filter]
  have h1 : st.filter (fun a => isKeyOf p a.1 && decide (a.1 ≠ k)) = [] := by
    rw [List.filter_eq_nil_iff] at h ⊢
    intro a ha
    simp [h a ha]
  rw [h1]
  simp [hk]

theorem filterKeys_put_key (st : Store) (p kid : String) (v : KVVal)
    (h : st.filter (fun e => isKeyOf p e.1) = []) :
    (kvPut st (keyKey p kid) v).filter (fun e => isKeyOf p e.1) =
      [(keyKey p kid, v)] := by
  unfold kvPut
  rw [List.filter_append, List.filter_filter]
  have h1 : st.filter (fun a => isKeyOf p a.1 && decide (a.1 ≠ keyKey p kid)) = [] := by
    rw [List.filter_eq_nil_iff] at h ⊢
    intro a ha
    simp [h a ha]
  rw [h1]
  simp [isKeyOf, keyKey]

/-- C5: on a store with no records for the peer, addPeer creates the peer in
pending status with exactly one active key, and a second addPeer with the
same peer_id reports peer_exists and performs no mutation at all. -/
theorem addPeer_idempotent_guard (st : Store) (p dn tok now : String)
    (eps : List String) (lbls anns : List (String × String)) (nowMs : Int)
    (dn2 tok2 now2 : String) (eps2 : List String)
    (lbls2 anns2 : List (String × String)) (nowMs2 : Int)
    (hmeta : kvGet st (metaKey p) = none)
    (hkeys : st.filter (fun e => isKeyOf p e.1) = []) :
    (addPeer st p dn eps tok lbls anns now nowMs).1 =
      ⟨true, none, p, some ("key_" ++ toString nowMs), some "pending"⟩ ∧
    kvGetMeta (addPeer st p dn eps tok lbls anns now nowMs).2 (metaKey p) =
      some (createPeer p dn eps lbls anns now) ∧
    getStatus (addPeer st p dn eps tok lbls anns now nowMs).2 p =
      some "pending" ∧
    ((addPeer st p dn eps tok lbls anns now nowMs).2).filter
        (fun e => isKeyOf p e.1) =
      [(keyKey p ("key_" ++ toString nowMs),
        KVVal.keyrec (createKey ("key_" ++ toString nowMs) tok now))] ∧
    (createKey ("key_" ++ toString nowMs) tok now).status = "active" ∧
    addPeer (addPeer st p dn eps tok lbls anns now nowMs).2 p dn2 eps2 tok2
        lbls2 anns2 now2 nowMs2 =
      (⟨false, some "peer_exists", p, none, none⟩,
       (addPeer st p dn eps tok lbls anns now nowMs).2) := by
  have e1 : addPeer st p dn eps tok lbls anns now nowMs =
      (⟨true, none, p, some ("key_" ++ toString nowMs), some "pending"⟩,
       kvPut (kvPut (kvPut (kvPut st (metaKey p)
           (KVVal.meta (createPeer p dn eps lbls anns now)))
         (statusKey p) (KVVal.str "pending"))
         (endpointsKey p) (KVVal.eps eps))
         (keyKey p ("key_" ++ toString nowMs))
         (KVVal.keyrec (createKey ("key_" ++ toString nowMs) tok now))) := by
    simp [addPeer, hmeta]
  have hmeta1 : kvGet (addPeer st p dn eps tok lbls anns now nowMs).2
      (metaKey p) = some (KVVal.meta (createPeer p dn eps lbls anns now)) := by
    rw [e1]
    rw [kvGet_put_ne _ _ _ _ (by simp [keyKey, metaKey]),
        kvGet_put_ne _ _ _ _ (by simp [endpointsKey, metaKey]),
        kvGet_put_ne _ _ _ _ (by simp [statusKey, metaKey]),
        kvGet_put_self]
  refine ⟨by rw [e1], ?_, ?_, ?_, rfl, ?_⟩
  · unfold kvGetMeta
    rw [hmeta1]
  · rw [e1]
    unfold getStatus
    rw [kvGet_put_ne _ _ _ _ (by simp [keyKey, statusKey]),
        kvGet_put_ne _ _ _ _ (by simp [endpointsKey, statusKey]),
        kvGet_put_self]
  · rw [e1]
    exact filterKeys_put_key _ p _ _
      (filterKeys_put_nonkey _ p _ _ (by simp [isKeyOf, endpointsKey])
        (filterKeys_put_nonkey _ p _ _ (by simp [isKeyOf, statusKey])
          (filterKeys_put_nonkey _ p _ _ (by simp [isKeyOf, metaKey]) hkeys)))
  · have hexists : ∀ (st' : Store) (w : KVVal),
        kvGet st' (metaKey p) = some w →
        addPeer st' p dn2 eps2 tok2 lbls2 anns2 now2 nowMs2 =
          (⟨false, some "peer_exists", p, none, none⟩, st') := by
      intro st' w hw
      unfold addPeer
      rw [hw]
    exact hexists _ _ hmeta1

theorem addPeer_idempotent_guard_witness :
    (addPeer [] "f.example" "F" ["https://f.example/inbox"] "ftok" [] []
      "t0" 7).1 = ⟨true, none, "f.example", some "key_7", some "pending"⟩ ∧
    getStatus (addPeer [] "f.example" "F" ["https://f.example/inbox"] "ftok"
      [] [] "t0" 7).2 "f.example" = some "pending" ∧
    ((addPeer [] "f.example" "F" ["https://f.example/inbox"] "ftok" [] []
        "t0" 7).2).filter (fun e => isKeyOf "f.example" e.1) =
      [(keyKey "f.example" "key_7", KVVal.keyrec (createKey "key_7" "ftok" "t0"))] ∧
    addPeer (addPeer [] "f.example" "F" ["https://f.example/inbox"] "ftok"
        [] [] "t0" 7).2 "f.example" "G" [] "gtok" [] [] "t9" 9 =
      (⟨false, some "peer_exists", "f.example", none, none⟩,
       (addPeer [] "f.example" "F" ["https://f.example/inbox"] "ftok" [] []
         "t0" 7).2) :=
  ⟨(addPeer_idempotent_guard [] "f.example" "F" "ftok" "t0"
      ["https://f.example/inbox"] [] [] 7 "G" "gtok" "t9" [] [] [] 9 rfl rfl).1,
   (addPeer_idempotent_guard [] "f.example" "F" "ftok" "t0"
      ["https://f.example/inbox"] [] [] 7 "G" "gtok" "t9" [] [] [] 9 rfl rfl).2.2.1,
   (addPeer_idempotent_guard [] "f.example" "F" "ftok" "t0"
      ["https://f.example/inbox"] [] [] 7 "G" "gtok" "t9" [] [] [] 9 rfl rfl).2.2.2.1,
   (addPeer_idempotent_guard [] "f.example" "F" "ftok" "t0"
      ["https://f.example/inbox"] [] [] 7 "G" "gtok" "t9" [] [] [] 9 rfl rfl).2.2.2.2.2⟩

theorem rlHits_put_log (st : Store) (ip iso uuid : String) (l : KnockLog) :
    rlHits (logKnock st iso uuid l) ip = rlHits st ip := by
  unfold rlHits logKnock
  rw [kvGet_put_ne _ _ _ _ (by simp)]

theorem rlHits_put_self (st : Store) (ip : String) (l : List Int) :
    rlHits (kvPut st (KVKey.ratelimit ip) (KVVal.hits l)) ip = l := by
  unfold rlHits
  rw [kvGet_put_self]

theorem handleKnock_valid_step (st : Store) (p : KnockPayload) (ip : String)
    (nowMs : Int) (iso uuid : String)
    (hty : p.type = some "knock")
    (hf : jsFalsy p.frm = false) (hto : jsFalsy p.toF = false)
    (hts : jsFalsy p.timestamp = false) (hn : jsFalsy p.nonce = false)
    (hok : tsBad nowMs p.tsMs = false) :
    (5 ≤ ((rlHits st ip).filter (fun t => decide (t > nowMs - 3600000))).length →
      (handleKnock st (some p) ip nowMs iso uuid).resp =
        knockError 429 "Too many requests." ∧
      (handleKnock st (some p) ip nowMs iso uuid).log.status = "rejected" ∧
      (handleKnock st (some p) ip nowMs iso uuid).log.reason = some "rate_limited" ∧
      rlHits (handleKnock st (some p) ip nowMs iso uuid).st ip = rlHits st ip) ∧
    (((rlHits st ip).filter (fun t => decide (t > nowMs - 3600000))).length < 5 →
      (handleKnock st (some p) ip nowMs iso uuid).resp = acceptKnockResp iso ∧
      (handleKnock st (some p) ip nowMs iso uuid).log.status = "accepted" ∧
      rlHits (handleKnock st (some p) ip nowMs iso uuid).st ip =
        (rlHits st ip).filter (fun t => decide (t > nowMs - 3600000)) ++ [nowMs]) := by
  have hty' : ¬ (p.type ≠ some "knock") := by simp [hty]
  constructor
  · intro hge
    simp only [handleKnock, if_neg hty', hf, hto, hts, hn, hok,
      Bool.or_self, Bool.or_false, Bool.false_or, if_neg (by simp : ¬ (false = true)),
      if_pos hge]
    simp [rlHits_put_log]
  · intro hlt
    simp only [handleKnock, if_neg hty', hf, hto, hts, hn, hok,
      Bool.or_self, Bool.or_false, Bool.false_or, if_neg (by simp : ¬ (false = true)),
      if_neg (Nat.not_le.mpr hlt)]
    simp [rlHits_put_log, rlHits_put_self]

/-- C6: the knock rate limiter is a sliding window of five per source IP
per rolling hour: starting from a fresh window, six otherwise-valid knocks
from one IP within an hour get five 200 admissions and a sixth 429 denial;
retention of a window entry is decided purely by its timestamp (entries
strictly older than one hour are pruned, admitted hits are the timestamp
filter of the prior window plus the current time, with no bucket boundary);
and a source that used its five slots during minutes 0 and 59 is still
denied at minute 60. -/
theorem handleKnock_rate_limit_sliding :
    (∀ (st : Store) (ip : String) (t1 t2 t3 t4 t5 t6 : Int)
      (i1 i2 i3 i4 i5 i6 u1 u2 u3 u4 u5 u6 : String),
      rlHits st ip = [] → t1 ≤ t2 → t2 ≤ t3 → t3 ≤ t4 → t4 ≤ t5 → t5 ≤ t6 →
      t6 - t1 < 3600000 →
      (runKnocks st ip [(t1, i1, u1), (t2, i2, u2), (t3, i3, u3),
          (t4, i4, u4), (t5, i5, u5), (t6, i6, u6)]).map
        (fun k => k.resp.status) = [200, 200, 200, 200, 200, 429]) ∧
    (∀ (st : Store) (p : KnockPayload) (ip : String) (nowMs : Int)
      (iso uuid : String),
      p.type = some "knock" → jsFalsy p.frm = false → jsFalsy p.toF = false →
      jsFalsy p.timestamp = false → jsFalsy p.nonce = false →
      tsBad nowMs p.tsMs = false →
      ((((rlHits st ip).filter (fun t => decide (t > nowMs - 3600000))).length < 5 →
        rlHits (handleKnock st (some p) ip nowMs iso uuid).st ip =
          (rlHits st ip).filter (fun t => decide (t > nowMs - 3600000)) ++ [nowMs]) ∧
       (∀ u ∈ rlHits st ip, nowMs - u > 3600000 →
        u ∉ (rlHits st ip).filter (fun t => decide (t > nowMs - 3600000))))) ∧
    (handleKnock c6Store (some (validKnockPayload 3600000)) "9.9.9.9" 3600000
      "iso" "u1").resp = knockError 429 "Too many requests." := by
  refine ⟨?_, ?_, ?_⟩
  · intro st ip t1 t2 t3 t4 t5 t6 i1 i2 i3 i4 i5 i6 u1 u2 u3 u4 u5 u6
      h0 o12 o23 o34 o45 o56 hwin
    have s1 := handleKnock_valid_step st
      (validKnockPayload t1) ip t1 i1 u1 rfl rfl rfl rfl rfl
      (by simp [tsBad, validKnockPayload])
    have hf1 : (rlHits st ip).filter
        (fun t => decide (t > t1 - 3600000)) = [] := by
      rw [h0]
      rfl
    have a1 := s1.2 (by rw [hf1]; simp)
    have h1 : rlHits (handleKnock st (some (validKnockPayload t1)) ip t1 i1 u1).st ip = [t1] := by
      rw [a1.2.2, hf1]
      rfl
    have s2 := handleKnock_valid_step (handleKnock st (some (validKnockPayload t1)) ip t1 i1 u1).st
      (validKnockPayload t2) ip t2 i2 u2 rfl rfl rfl rfl rfl
      (by simp [tsBad, validKnockPayload])
    have hf2 : (rlHits (handleKnock st (some (validKnockPayload t1)) ip t1 i1 u1).st ip).filter
        (fun t => decide (t > t2 - 3600000)) = [t1] := by
      rw [h1]
      simp [show t1 > t2 - 3600000 from by omega]
    have a2 := s2.2 (by rw [hf2]; simp)
    have h2 : rlHits (handleKnock (handleKnock st (some (validKnockPayload t1)) ip t1 i1 u1).st (some (validKnockPayload t2)) ip t2 i2 u2).st ip = [t1, t2] := by
      rw [a2.2.2, hf2]
      rfl
    have s3 := handleKnock_valid_step (handleKnock (handleKnock st (some (validKnockPayload t1)) ip t1 i1 u1).st (some (validKnockPayload t2)) ip t2 i2 u2).st
      (validKnockPayload t3) ip t3 i3 u3 rfl rfl rfl rfl rfl
      (by simp [tsBad, validKnockPayload])
    have hf3 : (rlHits (handleKnock (handleKnock st (some (validKnockPayload t1)) ip t1 i1 u1).st (some (validKnockPayload t2)) ip t2 i2 u2).st ip).filter
        (fun t => decide (t > t3 - 3600000)) = [t1, t2] := by
      rw [h2]
      simp [show t1 > t3 - 3600000 from by omega, show t2 > t3 - 3600000 from by omega]
    have a3 := s3.2 (by rw [hf3]; simp)
    have h3 : rlHits (handleKnock (handleKnock (handleKnock st (some (validKnockPayload t1)) ip t1 i1 u1).st (some (validKnockPayload t2)) ip t2 i2 u2).st (some (validKnockPayload t3)) ip t3 i3 u3).st ip = [t1, t2, t3] := by
      rw [a3.2.2, hf3]
      rfl
    have s4 := handleKnock_valid_step (handleKnock (handleKnock (handleKnock st (some (validKnockPayload t1)) ip t1 i1 u1).st (some (validKnockPayload t2)) ip t2 i2 u2).st (some (validKnockPayload t3)) ip t3 i3 u3).st
      (validKnockPayload t4) ip t4 i4 u4 rfl rfl rfl rfl rfl
      (by simp [tsBad, validKnockPayload])
    have hf4 : (rlHits (handleKnock (handleKnock (handleKnock st (some (validKnockPayload t1)) ip t1 i1 u1).st (some (validKnockPayload t2)) ip t2 i2 u2).st (some (validKnockPayload t3)) ip t3 i3 u3).st ip).filter
        (fun t => decide (t > t4 - 3600000)) = [t1, t2, t3] := by
      rw [h3]
      simp [show t1 > t4 - 3600000 from by omega, show t2 > t4 - 3600000 from by omega, show t3 > t4 - 3600000 from by omega]
    have a4 := s4.2 (by rw [hf4]; simp)
    have h4 : rlHits (handleKnock (handleKnock (handleKnock (handleKnock st (some (validKnockPayload t1)) ip t1 i1 u1).st (some (validKnockPayload t2)) ip t2 i2 u2).st (some (validKnockPayload t3)) ip t3 i3 u3).st (some (validKnockPayload t4)) ip t4 i4 u4).st ip = [t1, t2, t3, t4] := by
      rw [a4.2.2, hf4]
      rfl
    have s5 := handleKnock_valid_step (handleKnock (handleKnock (handleKnock (handleKnock st (some (validKnockPayload t1)) ip t1 i1 u1).st (some (validKnockPayload t2)) ip t2 i2 u2).st (some (validKnockPayload t3)) ip t3 i3 u3).st (some (validKnockPayload t4)) ip t4 i4 u4).st
      (validKnockPayload t5) ip t5 i5 u5 rfl rfl rfl rfl rfl
      (by simp [tsBad, validKnockPayload])
    have hf5 : (rlHits (handleKnock (handleKnock (handleKnock (handleKnock st (some (validKnockPayload t1)) ip t1 i1 u1).st (some (validKnockPayload t2)) ip t2 i2 u2).st (some (validKnockPayload t3)) ip t3 i3 u3).st (some (validKnockPayload t4)) ip t4 i4 u4).st ip).filter
        (fun t => decide (t > t5 - 3600000)) = [t1, t2, t3, t4] := by
      rw [h4]
      simp [show t1 > t5 - 3600000 from by omega, show t2 > t5 - 3600000 from by omega, show t3 > t5 - 3600000 from by omega, show t4 > t5 - 3600000 from by omega]
    have a5 := s5.2 (by rw [hf5]; simp)
    have h5 : rlHits (handleKnock (handleKnock (handleKnock (handleKnock (handleKnock st (some (validKnockPayload t1)) ip t1 i1 u1).st (some (validKnockPayload t2)) ip t2 i2 u2).st (some (validKnockPayload t3)) ip t3 i3 u3).st (some (validKnockPayload t4)) ip t4 i4 u4).st (some (validKnockPayload t5)) ip t5 i5 u5).st ip = [t1, t2, t3, t4, t5] := by
      rw [a5.2.2, hf5]
      rfl
    have s6 := handleKnock_valid_step (handleKnock (handleKnock (handleKnock (handleKnock (handleKnock st (some (validKnockPayload t1)) ip t1 i1 u1).st (some (validKnockPayload t2)) ip t2 i2 u2).st (some (validKnockPayload t3)) ip t3 i3 u3).st (some (validKnockPayload t4)) ip t4 i4 u4).st (some (validKnockPayload t5)) ip t5 i5 u5).st
      (validKnockPayload t6) ip t6 i6 u6 rfl rfl rfl rfl rfl
      (by simp [tsBad, validKnockPayload])
    have hf6 : (rlHits (handleKnock (handleKnock (handleKnock (handleKnock (handleKnock st (some (validKnockPayload t1)) ip t1 i1 u1).st (some (validKnockPayload t2)) ip t2 i2 u2).st (some (validKnockPayload t3)) ip t3 i3 u3).st (some (validKnockPayload t4)) ip t4 i4 u4).st (some (validKnockPayload t5)) ip t5 i5 u5).st ip).filter
        (fun t => decide (t > t6 - 3600000)) = [t1, t2, t3, t4, t5] := by
      rw [h5]
      simp [show t1 > t6 - 3600000 from by omega, show t2 > t6 - 3600000 from by omega, show t3 > t6 - 3600000 from by omega, show t4 > t6 - 3600000 from by omega, show t5 > t6 - 3600000 from by omega]
    have a6 := s6.1 (by rw [hf6]; simp)
    simp only [runKnocks, List.map_cons, List.map_nil]
    rw [a1.1, a2.1, a3.1, a4.1, a5.1, a6.1]
    rfl
  · intro st p ip nowMs iso uuid hty hf hto hts hn hok
    constructor
    · intro hlt
      exact ((handleKnock_valid_step st p ip nowMs iso uuid hty hf hto
        hts hn hok).2 hlt).2.2
    · intro u hu hold hmem
      have h2 := List.mem_filter.mp hmem
      have h3 := of_decide_eq_true h2.2
      omega
  · rfl

theorem handleKnock_rate_limit_sliding_witness :
    (runKnocks [] "1.2.3.4" [((0 : Int), "a1", "w1"), (600000, "a2", "w2"),
        (1200000, "a3", "w3"), (1800000, "a4", "w4"), (2400000, "a5", "w5"),
        (3000000, "a6", "w6")]).map (fun k => k.resp.status) =
      [200, 200, 200, 200, 200, 429] ∧
    rlHits (handleKnock [(KVKey.ratelimit "5.5.5.5", KVVal.hits [100, 3999000])]
        (some (validKnockPayload 4000000)) "5.5.5.5" 4000000 "i" "u").st
        "5.5.5.5" = [3999000, 4000000] ∧
    (100 : Int) ∉ (rlHits
        [(KVKey.ratelimit "5.5.5.5", KVVal.hits [100, 3999000])]
        "5.5.5.5").filter (fun t => decide (t > 4000000 - 3600000)) :=
  ⟨handleKnock_rate_limit_sliding.1 [] "1.2.3.4" 0 600000 1200000 1800000
     2400000 3000000 "a1" "a2" "a3" "a4" "a5" "a6" "w1" "w2" "w3" "w4" "w5"
     "w6" rfl (by decide) (by decide) (by decide) (by decide) (by decide)
     (by decide),
   (handleKnock_rate_limit_sliding.2.1
     [(KVKey.ratelimit "5.5.5.5", KVVal.hits [100, 3999000])]
     (validKnockPayload 4000000) "5.5.5.5" 4000000 "i" "u" rfl rfl rfl rfl rfl
     (by decide)).1 (by decide),
   (handleKnock_rate_limit_sliding.2.1
     [(KVKey.ratelimit "5.5.5.5", KVVal.hits [100, 3999000])]
     (validKnockPayload 4000000) "5.5.5.5" 4000000 "i" "u" rfl rfl rfl rfl rfl
     (by decide)).2 100 (by decide) (by decide)⟩

theorem handleKnock_reject_resp (st : Store) (body : Option KnockPayload)
    (ip : String) (nowMs : Int) (iso uuid : String) :
    ((handleKnock st body ip nowMs iso uuid).log.status = "rejected" →
      (handleKnock st body ip nowMs iso uuid).log.reason ≠ some "rate_limited" →
      (handleKnock st body ip nowMs iso uuid).resp =
        knockError 400 "Bad request.") ∧
    ((handleKnock st body ip nowMs iso uuid).log.status = "rejected" →
      (handleKnock st body ip nowMs iso uuid).log.reason = some "rate_limited" →
      (handleKnock st body ip nowMs iso uuid).resp =
        knockError 429 "Too many requests.") := by
  cases body with
  | none => exact ⟨fun _ _ => rfl, fun _ h2 => absurd h2 (by simp [handleKnock])⟩
  | some p =>
    simp only [handleKnock]
    split
    · exact ⟨fun _ _ => rfl, fun _ h2 => absurd h2 (by simp)⟩
    · split
      · exact ⟨fun _ _ => rfl, fun _ h2 => absurd h2 (by simp)⟩
      · split
        · exact ⟨fun _ _ => rfl, fun _ h2 => absurd h2 (by simp)⟩
        · split
          · exact ⟨fun _ h2 => absurd rfl h2, fun _ _ => rfl⟩
          · exact ⟨fun h1 _ => absurd h1 (by simp),
              fun h1 _ => absurd h1 (by simp)⟩

/-- C7: any two POST /knock requests rejected for validation reasons
(malformed JSON, wrong type, missing required fields, out-of-window
timestamp) receive identical responses with status 400 and the same
field-detail-free body; only the rate-limited rejection differs, with status
429 and a distinct message. -/
theorem knock_reject_uniform_resp (st1 st2 : Store)
    (b1 b2 : Option KnockPayload) (ip1 ip2 : String) (n1 n2 : Int)
    (o1 o2 v1 v2 : String) :
    ((handleKnock st1 b1 ip1 n1 o1 v1).log.status = "rejected" →
     (handleKnock st2 b2 ip2 n2 o2 v2).log.status = "rejected" →
     ((handleKnock st1 b1 ip1 n1 o1 v1).log.reason = some "bad_json" ∨
      (handleKnock st1 b1 ip1 n1 o1 v1).log.reason = some "invalid_type" ∨
      (handleKnock st1 b1 ip1 n1 o1 v1).log.reason = some "missing_fields" ∨
      (handleKnock st1 b1 ip1 n1 o1 v1).log.reason = some "bad_timestamp") →
     ((handleKnock st2 b2 ip2 n2 o2 v2).log.reason = some "bad_json" ∨
      (handleKnock st2 b2 ip2 n2 o2 v2).log.reason = some "invalid_type" ∨
      (handleKnock st2 b2 ip2 n2 o2 v2).log.reason = some "missing_fields" ∨
      (handleKnock st2 b2 ip2 n2 o2 v2).log.reason = some "bad_timestamp") →
     (handleKnock st1 b1 ip1 n1 o1 v1).resp =
       (handleKnock st2 b2 ip2 n2 o2 v2).resp ∧
     (handleKnock st1 b1 ip1 n1 o1 v1).resp.status = 400) ∧
    ((handleKnock st1 b1 ip1 n1 o1 v1).log.status = "rejected" →
     (handleKnock st1 b1 ip1 n1 o1 v1).log.reason = some "rate_limited" →
     (handleKnock st1 b1 ip1 n1 o1 v1).resp.status = 429 ∧
     (handleKnock st1 b1 ip1 n1 o1 v1).resp ≠ knockError 400 "Bad request.") := by
  constructor
  · intro hs1 hs2 hr1 hr2
    have hv1 : (handleKnock st1 b1 ip1 n1 o1 v1).log.reason ≠
        some "rate_limited" := by
      rcases hr1 with h | h | h | h <;> rw [h] <;> decide
    have hv2 : (handleKnock st2 b2 ip2 n2 o2 v2).log.reason ≠
        some "rate_limited" := by
      rcases hr2 with h | h | h | h <;> rw [h] <;> decide
    have e1 := (handleKnock_reject_resp st1 b1 ip1 n1 o1 v1).1 hs1 hv1
    have e2 := (handleKnock_reject_resp st2 b2 ip2 n2 o2 v2).1 hs2 hv2
    rw [e1, e2]
    exact ⟨rfl, rfl⟩
  · intro hs1 hr1
    have e1 := (handleKnock_reject_resp st1 b1 ip1 n1 o1 v1).2 hs1 hr1
    rw [e1]
    exact ⟨rfl, by decide⟩

theorem knock_reject_uniform_resp_witness :
    (handleKnock [] (some ⟨some "knock", some "a.example", some "b.example",
        some "ts", none, none, none, none, some 0⟩) "7.7.7.7" 0 "i1"
      "u1").log.reason = some "missing_fields" ∧
    (handleKnock [] (some ⟨some "knock", some "a.example", some "b.example",
        some "garbage", some "n1", none, none, none, none⟩) "7.7.7.7" 0 "i2"
      "u2").log.reason = some "bad_timestamp" ∧
    (handleKnock [] (some ⟨some "knock", some "a.example", some "b.example",
        some "ts", none, none, none, none, some 0⟩) "7.7.7.7" 0 "i1"
      "u1").resp =
      (handleKnock [] (some ⟨some "knock", some "a.example", some "b.example",
          some "garbage", some "n1", none, none, none, none⟩) "7.7.7.7" 0 "i2"
        "u2").resp ∧
    (handleKnock [] (some ⟨some "knock", some "a.example", some "b.example",
        some "ts", none, none, none, none, some 0⟩) "7.7.7.7" 0 "i1"
      "u1").resp.status = 400 ∧
    (handleKnock c6Store (some (validKnockPayload 3600000)) "9.9.9.9" 3600000
      "iso" "u1").resp.status = 429 ∧
    (handleKnock c6Store (some (validKnockPayload 3600000)) "9.9.9.9" 3600000
      "iso" "u1").resp ≠ knockError 400 "Bad request." :=
  ⟨rfl, rfl,
   ((knock_reject_uniform_resp [] [] (some ⟨some "knock", some "a.example",
       some "b.example", some "ts", none, none, none, none, some 0⟩)
     (some ⟨some "knock", some "a.example", some "b.example", some "garbage",
       some "n1", none, none, none, none⟩) "7.7.7.7" "7.7.7.7" 0 0 "i1" "i2"
     "u1" "u2").1 rfl rfl (Or.inr (Or.inr (Or.inl rfl)))
     (Or.inr (Or.inr (Or.inr rfl)))).1,
   ((knock_reject_uniform_resp [] [] (some ⟨some "knock", some "a.example",
       some "b.example", some "ts", none, none, none, none, some 0⟩)
     (some ⟨some "knock", some "a.example", some "b.example", some "garbage",
       some "n1", none, none, none, none⟩) "7.7.7.7" "7.7.7.7" 0 0 "i1" "i2"
     "u1" "u2").1 rfl rfl (Or.inr (Or.inr (Or.inl rfl)))
     (Or.inr (Or.inr (Or.inr rfl)))).2,
   ((knock_reject_uniform_resp c6Store [] (some (validKnockPayload 3600000))
     none "9.9.9.9" "x" 3600000 0 "iso" "y" "u1" "z").2 rfl rfl).1,
   ((knock_reject_uniform_resp c6Store [] (some (validKnockPayload 3600000))
     none "9.9.9.9" "x" 3600000 0 "iso" "y" "u1" "z").2 rfl rfl).2⟩
